import Mathlib

/-!
Shallow embedding of the circonus-agent reverse-connection supervisor
(`internal/reverse`: `New`, `Reverse.Start`) and of the windows wmi disk
collector's `Disk.Collect` guard logic.

External effects (the check resolver, connection construction and the
connection's `Start`, wmi queries, the context) are modelled as oracles:
each loop iteration consumes an `IterEnv` record holding the outcome every
external call would produce in that iteration, and the functions return the
list of external calls actually performed (`Event`s) alongside their result,
so that theorems can speak about which effects happened.

Time is modelled as a `Nat` count of seconds; `time.Since(x)` at instant
`now` is `now - x` and Go's `5 * time.Minute` is the constant
`fiveMinutes = 300`.
-/

/-- Per-broker record (`check.ReverseConfig`): only the fields the reverse
package reads are kept. -/
structure BrokerConfig where
  brokerID : String
  cn : String
  brokerAddr : String
  reverseURL : String
deriving DecidableEq, Repr

/-- `check.ReverseConfigs` is a Go map from broker CN to config; modelled as
an association list with unique keys. -/
abbrev ReverseConfigs := List (String × BrokerConfig)

/-- Go map lookup `(*r.configs)[primaryCN]`. -/
def lookupCN (cfgs : ReverseConfigs) (cn : String) : Option BrokerConfig :=
  match cfgs.find? (fun p => p.1 == cn) with
  | some p => some p.2
  | none => none

/-- External calls the supervisor loop can perform, in order of occurrence.
`connStart`/`connDone` bracket the run of one Connection (`rc.Start` guarded
by `wg.Wait()`). -/
inductive Event where
  | refreshCall
  | getConfigsCall
  | findPrimaryCall
  | connNew
  | connStart
  | connDone
deriving DecidableEq, Repr

/-- Outcome of `chk.FindPrimaryBrokerInstance`: a CN, a
`*check.ErrNoOwnerFound`, or any other error. -/
inductive FindPrimaryResult where
  | ok (cn : String)
  | noOwner (msg : String)
  | err (msg : String)
deriving DecidableEq, Repr

/-- Outcome of `rc.Start(rctx)`: nil, a `*connection.OpError` with its two
flags, or an error of any other type. -/
inductive ConnResult where
  | ok
  | opError (fatal refreshCheck : Bool) (msg : String)
  | otherError (msg : String)
deriving DecidableEq, Repr

/-- Oracle for one iteration of the supervisor loop: the state of the parent
context at the top of the iteration, the current time, and the results each
external call would return. -/
structure IterEnv where
  ctxCancelled : Bool
  now : Nat
  refreshResult : Except String Unit
  getConfigsResult : Except String ReverseConfigs
  findPrimaryResult : FindPrimaryResult
  connNewResult : Except String Unit
  connStartResult : ConnResult
deriving Repr

/-- The supervisor loop's mutable state: `lastRefresh` and `refreshCheck`
locals, the `r.configs` field, and whether `cancel()` has been called on the
inner context `rctx`. -/
structure LoopState where
  lastRefresh : Nat
  refreshCheck : Bool
  configs : ReverseConfigs
  innerCancelled : Bool
deriving DecidableEq, Repr

/-- Result of one loop iteration: `ret r` models `return r` (with `none` for
a nil error), `cont s` models reaching the bottom of the `for` body (or a
`continue`) with updated state. -/
inductive StepRes where
  | ret (result : Option String)
  | cont (s : LoopState)
deriving DecidableEq, Repr

/-- `5 * time.Minute`, in seconds. -/
def fiveMinutes : Nat := 5 * 60

/-- The second half of the loop body (part_000 lines 258-309): FindPrimary
with the `ErrNoOwnerFound` special case, the CN lookup, `connection.New`,
and the `rc.Start` goroutine joined by `wg.Wait()` whose OpError flags map
to `cancel()` (fatal) or `refreshCheck = true`. `cfgs` is the configs value
in effect after the refresh block; at this point the `refreshCheck` local is
always false (the refresh block either resets it or it was false), so the
`continue` branches that leave it alone record `false`. -/
def startIterFind (s : LoopState) (e : IterEnv) (cfgs : ReverseConfigs) :
    List Event × StepRes :=
  match e.findPrimaryResult with
  | .noOwner _ =>
    ([.findPrimaryCall], .cont { s with refreshCheck := true, configs := cfgs })
  | .err msg => ([.findPrimaryCall], .ret (some msg))
  | .ok cn =>
    match lookupCN cfgs cn with
    | none =>
      ([.findPrimaryCall], .cont { s with refreshCheck := true, configs := cfgs })
    | some _ =>
      match e.connNewResult with
      | .error msg => ([.findPrimaryCall, .connNew], .ret (some msg))
      | .ok _ =>
        match e.connStartResult with
        | .ok =>
          ([.findPrimaryCall, .connNew, .connStart, .connDone],
           .cont { s with refreshCheck := false, configs := cfgs })
        | .otherError _ =>
          ([.findPrimaryCall, .connNew, .connStart, .connDone],
           .cont { s with refreshCheck := false, configs := cfgs })
        | .opError fatal refresh _ =>
          if fatal then
            ([.findPrimaryCall, .connNew, .connStart, .connDone],
             .cont { s with refreshCheck := false, configs := cfgs, innerCancelled := true })
          else if refresh then
            ([.findPrimaryCall, .connNew, .connStart, .connDone],
             .cont { s with refreshCheck := true, configs := cfgs })
          else
            ([.findPrimaryCall, .connNew, .connStart, .connDone],
             .cont { s with refreshCheck := false, configs := cfgs })

/-- One iteration of the `for` loop in `Reverse.Start` (part_000 lines
231-310), translated branch by branch: select on `rctx.Done()` (done when
the parent context is cancelled or `cancel()` was called); the
`time.Since(lastRefresh)` check (note the source never updates
`lastRefresh`); the refresh block with its two error returns; then
`startIterFind` for the rest of the body. -/
def startIter (s : LoopState) (e : IterEnv) : List Event × StepRes :=
  if e.ctxCancelled || s.innerCancelled then
    ([], .ret none)
  else if (if fiveMinutes < e.now - s.lastRefresh then true else s.refreshCheck) then
    match e.refreshResult with
    | .error msg => ([.refreshCall], .ret (some msg))
    | .ok _ =>
      match e.getConfigsResult with
      | .error msg =>
        ([.refreshCall, .getConfigsCall],
         .ret (some ("getting reverse configurations: " ++ msg)))
      | .ok cfgs =>
        let p := startIterFind s e cfgs
        ([.refreshCall, .getConfigsCall] ++ p.1, p.2)
  else
    startIterFind s e s.configs

/-- Outcome of running the loop against a finite oracle trace: either some
iteration executed `return`, or the oracle was exhausted with the loop still
running in state `s`. -/
inductive RunOutcome where
  | returned (result : Option String)
  | running (s : LoopState)
deriving DecidableEq, Repr

/-- The `for` loop of `Reverse.Start`, iterated over a finite oracle trace. -/
def startLoop (s : LoopState) : List IterEnv → List Event × RunOutcome
  | [] => ([], .running s)
  | e :: es =>
    match startIter s e with
    | (evs, .ret r) => (evs, .returned r)
    | (evs, .cont s') =>
      let p := startLoop s' es
      (evs ++ p.1, p.2)

/-- The fields of `reverse.Reverse` the embedded code reads. `configs` is
`Option`-wrapped to model the nil pointer. -/
structure Reverse where
  agentAddress : String
  configs : Option ReverseConfigs
  enabled : Bool
deriving Repr

/-- `Reverse.Start` (part_000 lines 215-311): the enabled gate, the nil and
empty configs checks, then the loop with `lastRefresh := time.Now()`
(= `startTime`) and `refreshCheck := false`. -/
def Reverse.Start (r : Reverse) (startTime : Nat) (envs : List IterEnv) :
    List Event × RunOutcome :=
  if !r.enabled then
    ([], .returned none)
  else
    match r.configs with
    | none => ([], .returned (some "invalid reverse configurations (nil)"))
    | some cfgs =>
      if cfgs.length == 0 then
        ([], .returned (some "invalid reverse configurations (zero)"))
      else
        startLoop
          { lastRefresh := startTime, refreshCheck := false,
            configs := cfgs, innerCancelled := false } envs

/-- The fields of `check.Meta` read by `reverse.New`. -/
structure CheckMeta where
  bundleID : String
  checkID : String
  checkUUID : String
deriving DecidableEq, Repr

/-- Oracle for `reverse.New`: its two explicit arguments (`chk == nil` and
the agent address), the `reverse.enabled` setting read from viper, and the
results the two resolver calls would return. -/
structure NewEnv where
  chkNil : Bool
  agentAddress : String
  enabledSetting : Bool
  getConfigsResult : Except String ReverseConfigs
  checkMetaResult : Except String CheckMeta
deriving Repr

/-- Resolver calls `reverse.New` can perform. -/
inductive ResolverEvent where
  | getReverseConfigsCall
  | checkMetaCall
deriving DecidableEq, Repr

/-- `reverse.New` (part_000 lines 176-212): nil-check and empty-address
guards, the enabled gate returning early, then `GetReverseConfigs` and
`CheckMeta` with wrapped errors. -/
def Reverse.New (e : NewEnv) : List ResolverEvent × Except String Reverse :=
  if e.chkNil then
    ([], .error "invalid check (nil")
  else if e.agentAddress == "" then
    ([], .error "invalid agent address (empty)")
  else if !e.enabledSetting then
    ([], .ok { agentAddress := e.agentAddress, configs := none, enabled := false })
  else
    match e.getConfigsResult with
    | .error msg => ([.getReverseConfigsCall], .error ("getting reverse configurations: " ++ msg))
    | .ok cfgs =>
      match e.checkMetaResult with
      | .error msg =>
        ([.getReverseConfigsCall, .checkMetaCall], .error ("setting up reverse: " ++ msg))
      | .ok _ =>
        ([.getReverseConfigsCall, .checkMetaCall],
         .ok { agentAddress := e.agentAddress, configs := some cfgs, enabled := true })

/-- The fields of the wmi `Disk` collector (and its embedded `wmicommon`)
that `Disk.Collect` reads or writes. Times are `Nat` instants; `runTTL` is a
duration in the same unit. -/
structure DiskState where
  runTTL : Nat
  lastEnd : Nat
  lastStart : Nat
  running : Bool
  logical : Bool
  physical : Bool
deriving DecidableEq, Repr

/-- Errors `Disk.Collect` can return: the two sentinel collector errors and
a wrapped wmi query error. -/
inductive DiskErr where
  | errTTLNotExpired
  | errAlreadyRunning
  | wrapped (msg : String)
deriving DecidableEq, Repr

/-- The wmi queries `Disk.Collect` can issue. -/
inductive DiskEvent where
  | queryLogical
  | queryPhysical
deriving DecidableEq, Repr

/-- Oracle for one `Disk.Collect` call: the current time and the outcome of
each wmi query (row contents are irrelevant to control flow and omitted). -/
structure CollectEnv where
  now : Nat
  logicalQuery : Except String Unit
  physicalQuery : Except String Unit
deriving Repr

/-- `Disk.Collect` (disk.go lines 223-285): the TTL guard
(`runTTL > 0 && time.Since(lastEnd) < runTTL` → ErrTTLNotExpired), the
`running` guard (→ ErrAlreadyRunning), then `running := true`,
`lastStart := now` and the logical/physical wmi queries with early error
returns. Metric emission mutates no collector state and cannot fail the
call (its errors are discarded with `_ =` in the source), so it is not
modelled; the returned state is the collector state as of the query phase. -/
def Disk.Collect (c : DiskState) (e : CollectEnv) :
    List DiskEvent × DiskState × Option DiskErr :=
  if 0 < c.runTTL ∧ e.now - c.lastEnd < c.runTTL then
    ([], c, some .errTTLNotExpired)
  else if c.running then
    ([], c, some .errAlreadyRunning)
  else
    let c := { c with running := true, lastStart := e.now }
    if c.logical then
      match e.logicalQuery with
      | .error msg => ([.queryLogical], c, some (.wrapped msg))
      | .ok _ =>
        if c.physical then
          match e.physicalQuery with
          | .error msg => ([.queryLogical, .queryPhysical], c, some (.wrapped msg))
          | .ok _ => ([.queryLogical, .queryPhysical], c, none)
        else
          ([.queryLogical], c, none)
    else
      if c.physical then
        match e.physicalQuery with
        | .error msg => ([.queryPhysical], c, some (.wrapped msg))
        | .ok _ => ([.queryPhysical], c, none)
      else
        ([], c, none)

/-- Checks that, starting from `active` running Connections, the event list
never has two Connections active at once and never closes a Connection that
is not open: `connStart` requires 0 active and makes it 1, `connDone`
requires 1 active and makes it 0. -/
def wellNested : Nat → List Event → Bool
  | _, [] => true
  | n, Event.connStart :: rest => n == 0 && wellNested 1 rest
  | n, Event.connDone :: rest => n == 1 && wellNested 0 rest
  | n, _ :: rest => wellNested n rest

/-- A concrete broker config used by the concrete runs below. -/
def cfg0 : BrokerConfig :=
  { brokerID := "/broker/1", cn := "cn1",
    brokerAddr := "10.2.3.4:43191", reverseURL := "mtev_reverse" }

/-- An enabled `Reverse` with one valid config, used by the concrete runs. -/
def rev0 : Reverse :=
  { agentAddress := "localhost:2609", configs := some [("cn1", cfg0)], enabled := true }

/-- Iteration oracle at time `t` where every external call succeeds and the
Connection exits cleanly. -/
def okEnvAt (t : Nat) : IterEnv :=
  { ctxCancelled := false, now := t, refreshResult := .ok (),
    getConfigsResult := .ok [("cn1", cfg0)], findPrimaryResult := .ok "cn1",
    connNewResult := .ok (), connStartResult := .ok }

/-- Iteration oracle where the Connection's Start fails with a fatal
OpError. -/
def fatalEnv : IterEnv :=
  { okEnvAt 0 with connStartResult := .opError true false "handshake refused" }

/-- The loop state at the start of a run of `rev0` begun at time 0. -/
def loopState0 : LoopState :=
  { lastRefresh := 0, refreshCheck := false,
    configs := [("cn1", cfg0)], innerCancelled := false }

/-- Iteration oracle where FindPrimary reports no owner. -/
def noOwnerEnv : IterEnv :=
  { okEnvAt 0 with findPrimaryResult := .noOwner "no owner found" }

/-- Iteration oracle where FindPrimary fails with an ordinary error. -/
def findErrEnv : IterEnv :=
  { okEnvAt 0 with findPrimaryResult := .err "api error" }

/-- Iteration oracle where FindPrimary returns a CN absent from the
configs. -/
def missingCNEnv : IterEnv :=
  { okEnvAt 0 with findPrimaryResult := .ok "cn2" }


/-- Claim C4: when the reverse feature is disabled, `Reverse.Start` exits
immediately with a nil result, performing no refresh, no primary lookup and
constructing no Connection (the event trace is empty). -/
theorem c4_disabled_start_is_noop (r : Reverse) (t : Nat) (envs : List IterEnv)
    (h : r.enabled = false) :
    Reverse.Start r t envs = ([], .returned none) := by
  simp [Reverse.Start, h]

theorem c4_witness :
    Reverse.Start { agentAddress := "localhost:2609", configs := none, enabled := false }
      0 [okEnvAt 0] = ([], .returned none) :=
  c4_disabled_start_is_noop _ 0 [okEnvAt 0] rfl

/-- Claim C5: with reverse enabled, a nil or empty `ReverseConfigs` mapping
makes `Reverse.Start` return an error without entering the loop (the event
trace is empty). -/
theorem c5_invalid_configs_fatal (r : Reverse) (t : Nat) (envs : List IterEnv)
    (he : r.enabled = true) :
    (r.configs = none →
      Reverse.Start r t envs = ([], .returned (some "invalid reverse configurations (nil)"))) ∧
    (r.configs = some [] →
      Reverse.Start r t envs = ([], .returned (some "invalid reverse configurations (zero)"))) := by
  constructor <;> intro hc <;> simp [Reverse.Start, he, hc]

theorem c5_witness :
    Reverse.Start { agentAddress := "localhost:2609", configs := none, enabled := true }
        0 [okEnvAt 0] = ([], .returned (some "invalid reverse configurations (nil)")) ∧
    Reverse.Start { agentAddress := "localhost:2609", configs := some [], enabled := true }
        0 [okEnvAt 0] = ([], .returned (some "invalid reverse configurations (zero)")) :=
  ⟨(c5_invalid_configs_fatal _ 0 [okEnvAt 0] rfl).1 rfl,
   (c5_invalid_configs_fatal _ 0 [okEnvAt 0] rfl).2 rfl⟩

/-- Claim C3: a cancelled context makes the loop exit with a nil result: any
iteration whose context is cancelled at its top returns nil, and an
invocation of `Reverse.Start` (enabled, valid configs) whose context is
cancelled returns nil. -/
theorem c3_cancellation_returns_nil :
    (∀ (s : LoopState) (e : IterEnv), e.ctxCancelled = true →
      startIter s e = ([], .ret none)) ∧
    (∀ (r : Reverse) (t : Nat) (e : IterEnv) (es : List IterEnv) (cfgs : ReverseConfigs),
      r.enabled = true → r.configs = some cfgs → cfgs ≠ [] → e.ctxCancelled = true →
      Reverse.Start r t (e :: es) = ([], .returned none)) := by
  have hiter : ∀ (s : LoopState) (e : IterEnv), e.ctxCancelled = true →
      startIter s e = ([], .ret none) := by
    intro s e h
    simp [startIter, h]
  refine ⟨hiter, ?_⟩
  intro r t e es cfgs he hc hne hcanc
  have hlen : (cfgs.length == 0) = false := by
    simpa using hne
  simp [Reverse.Start, he, hc, hlen, startLoop, hiter _ _ hcanc]

theorem c3_witness :
    Reverse.Start rev0 0 [{ okEnvAt 0 with ctxCancelled := true }] = ([], .returned none) :=
  c3_cancellation_returns_nil.2 rev0 0 _ [] [("cn1", cfg0)] rfl rfl (by decide) rfl

/-- Claim C10 counterexample: a collector state that is both mid-collection
(`running = true`) and inside its TTL window returns `ErrTTLNotExpired`, not
`ErrAlreadyRunning` — the TTL guard fires first. -/
theorem c10_counterexample :
    ({ runTTL := 10, lastEnd := 95, lastStart := 96, running := true,
       logical := true, physical := true : DiskState }).running = true ∧
    (Disk.Collect
      { runTTL := 10, lastEnd := 95, lastStart := 96, running := true,
        logical := true, physical := true }
      { now := 100, logicalQuery := .ok (), physicalQuery := .ok () }).2.2 =
        some .errTTLNotExpired ∧
    (Disk.Collect
      { runTTL := 10, lastEnd := 95, lastStart := 96, running := true,
        logical := true, physical := true }
      { now := 100, logicalQuery := .ok (), physicalQuery := .ok () }).2.2 ≠
        some .errAlreadyRunning := by
  decide

/-- Claim C10 (amended): `Disk.Collect` returns `ErrTTLNotExpired` without
collecting when a positive `runTTL` is configured and less than `runTTL` has
elapsed since the previous collection ended; it returns `ErrAlreadyRunning`
without collecting when a collection is in flight and the TTL guard did not
fire (the TTL check precedes the running check). In both cases the collector
state is unchanged and no wmi query is issued. -/
theorem c10_collect_guards (c : DiskState) (e : CollectEnv) :
    ((0 < c.runTTL ∧ e.now - c.lastEnd < c.runTTL) →
      Disk.Collect c e = ([], c, some .errTTLNotExpired)) ∧
    (¬(0 < c.runTTL ∧ e.now - c.lastEnd < c.runTTL) → c.running = true →
      Disk.Collect c e = ([], c, some .errAlreadyRunning)) := by
  constructor
  · intro h
    simp [Disk.Collect, h]
  · intro h hr
    simp [Disk.Collect, h, hr]

theorem c10_witness :
    Disk.Collect
      { runTTL := 10, lastEnd := 95, lastStart := 96, running := false,
        logical := true, physical := true }
      { now := 100, logicalQuery := .ok (), physicalQuery := .ok () } =
      ([], { runTTL := 10, lastEnd := 95, lastStart := 96, running := false,
             logical := true, physical := true }, some .errTTLNotExpired) :=
  (c10_collect_guards _ _).1 (by decide)

/-- Helper: when the iteration is not cancelled and (if taken) the refresh
path succeeds, `startIter` delegates to `startIterFind` on the effective
configs — the freshly loaded ones when a refresh ran (flag set or more than
five minutes since `lastRefresh`), the current ones otherwise — after a
possible `[refreshCall, getConfigsCall]` event prefix. -/
theorem startIter_eq_find (s : LoopState) (e : IterEnv) (cfgsNew : ReverseConfigs)
    (hc1 : e.ctxCancelled = false) (hc2 : s.innerCancelled = false)
    (hr : e.refreshResult = .ok ()) (hg : e.getConfigsResult = .ok cfgsNew) :
    ∃ pre cfgs, (pre = [] ∨ pre = [Event.refreshCall, Event.getConfigsCall]) ∧
      cfgs = (if s.refreshCheck = true ∨ fiveMinutes < e.now - s.lastRefresh
        then cfgsNew else s.configs) ∧
      startIter s e = (pre ++ (startIterFind s e cfgs).1, (startIterFind s e cfgs).2) := by
  by_cases h5 : fiveMinutes < e.now - s.lastRefresh
  · refine ⟨[Event.refreshCall, Event.getConfigsCall], cfgsNew, Or.inr rfl, ?_, ?_⟩
    · simp [h5]
    · simp [startIter, hc1, hc2, h5, hr, hg]
  · cases hrc : s.refreshCheck
    · refine ⟨[], s.configs, Or.inl rfl, ?_, ?_⟩
      · simp [h5, hrc]
      · simp [startIter, hc1, hc2, h5, hrc]
    · refine ⟨[Event.refreshCall, Event.getConfigsCall], cfgsNew, Or.inr rfl, ?_, ?_⟩
      · simp [hrc]
      · simp [startIter, hc1, hc2, h5, hrc, hr, hg]

/-- Claim C6: in an iteration that reaches FindPrimary, a "no owner found"
outcome sets `refreshCheck := true` and continues the loop (no `return`),
while every other FindPrimary error is returned from Start. -/
theorem c6_findprimary_noowner_transient (s : LoopState) (e : IterEnv)
    (cfgsNew : ReverseConfigs)
    (hc1 : e.ctxCancelled = false) (hc2 : s.innerCancelled = false)
    (hr : e.refreshResult = .ok ()) (hg : e.getConfigsResult = .ok cfgsNew) :
    (∀ msg, e.findPrimaryResult = .noOwner msg →
      ∃ s', (startIter s e).2 = .cont s' ∧ s'.refreshCheck = true) ∧
    (∀ msg, e.findPrimaryResult = .err msg →
      (startIter s e).2 = .ret (some msg)) := by
  obtain ⟨pre, cfgs, hpre, hcfg, heq⟩ := startIter_eq_find s e cfgsNew hc1 hc2 hr hg
  constructor
  · intro msg hf
    rw [heq]
    dsimp
    simp only [startIterFind, hf]
    exact ⟨_, rfl, rfl⟩
  · intro msg hf
    rw [heq]
    dsimp
    simp only [startIterFind, hf]

/-- Claim C7: in an iteration that reaches the CN lookup, a primary CN with
no entry in the effective ReverseConfigs mapping sets `refreshCheck := true`
and continues the loop without constructing a Connection and without
returning an error. -/
theorem c7_missing_cn_refreshes (s : LoopState) (e : IterEnv)
    (cfgsNew : ReverseConfigs) (cn : String)
    (hc1 : e.ctxCancelled = false) (hc2 : s.innerCancelled = false)
    (hr : e.refreshResult = .ok ()) (hg : e.getConfigsResult = .ok cfgsNew)
    (hf : e.findPrimaryResult = .ok cn)
    (hlook : lookupCN (if s.refreshCheck = true ∨ fiveMinutes < e.now - s.lastRefresh
      then cfgsNew else s.configs) cn = none) :
    (∃ s', (startIter s e).2 = .cont s' ∧ s'.refreshCheck = true) ∧
    Event.connNew ∉ (startIter s e).1 ∧ Event.connStart ∉ (startIter s e).1 := by
  obtain ⟨pre, cfgs, hpre, hcfg, heq⟩ := startIter_eq_find s e cfgsNew hc1 hc2 hr hg
  rw [← hcfg] at hlook
  rw [heq]
  refine ⟨⟨{ s with refreshCheck := true, configs := cfgs }, ?_, rfl⟩, ?_, ?_⟩
  · dsimp
    simp only [startIterFind, hf, hlook]
  all_goals
    simp only [startIterFind, hf, hlook]
    rcases hpre with h | h <;> simp [h]

/-- Claim C1 (amended): in an iteration that runs a Connection whose Start
returns an OpError with `fatal = true`, the supervisor cancels its inner
context and continues; the next iteration then exits the loop returning
nil — the fatal error itself is not the return value of `Reverse.Start`. -/
theorem c1_fatal_cancels_then_exits_nil (s : LoopState) (e : IterEnv)
    (cfgsNew : ReverseConfigs) (cn : String) (cfg : BrokerConfig)
    (rfc : Bool) (msg : String)
    (hc1 : e.ctxCancelled = false) (hc2 : s.innerCancelled = false)
    (hr : e.refreshResult = .ok ()) (hg : e.getConfigsResult = .ok cfgsNew)
    (hf : e.findPrimaryResult = .ok cn)
    (hlook : lookupCN (if s.refreshCheck = true ∨ fiveMinutes < e.now - s.lastRefresh
      then cfgsNew else s.configs) cn = some cfg)
    (hn : e.connNewResult = .ok ())
    (hs : e.connStartResult = .opError true rfc msg) :
    ∃ s', (startIter s e).2 = .cont s' ∧ s'.innerCancelled = true ∧
      Event.connStart ∈ (startIter s e).1 ∧
      ∀ e2, startIter s' e2 = ([], .ret none) := by
  obtain ⟨pre, cfgs, hpre, hcfg, heq⟩ := startIter_eq_find s e cfgsNew hc1 hc2 hr hg
  rw [← hcfg] at hlook
  rw [heq]
  refine ⟨{ s with refreshCheck := false, configs := cfgs, innerCancelled := true },
    ?_, rfl, ?_, ?_⟩
  · dsimp
    simp only [startIterFind, hf, hlook, hn, hs]
    rfl
  · simp only [startIterFind, hf, hlook, hn, hs]
    simp
  · intro e2
    simp [startIter]

theorem c6_witness :
    (∃ s', (startIter loopState0 noOwnerEnv).2 = .cont s' ∧ s'.refreshCheck = true) ∧
    (startIter loopState0 findErrEnv).2 = .ret (some "api error") :=
  ⟨(c6_findprimary_noowner_transient loopState0 noOwnerEnv [("cn1", cfg0)]
      rfl rfl rfl rfl).1 "no owner found" rfl,
   (c6_findprimary_noowner_transient loopState0 findErrEnv [("cn1", cfg0)]
      rfl rfl rfl rfl).2 "api error" rfl⟩

theorem c7_witness :
    (∃ s', (startIter loopState0 missingCNEnv).2 = .cont s' ∧ s'.refreshCheck = true) ∧
    Event.connNew ∉ (startIter loopState0 missingCNEnv).1 ∧
    Event.connStart ∉ (startIter loopState0 missingCNEnv).1 :=
  c7_missing_cn_refreshes loopState0 missingCNEnv [("cn1", cfg0)] "cn2"
    rfl rfl rfl rfl rfl (by decide)

theorem c1_witness :
    ∃ s', (startIter loopState0 fatalEnv).2 = .cont s' ∧ s'.innerCancelled = true ∧
      Event.connStart ∈ (startIter loopState0 fatalEnv).1 ∧
      ∀ e2, startIter s' e2 = ([], .ret none) :=
  c1_fatal_cancels_then_exits_nil loopState0 fatalEnv [("cn1", cfg0)] "cn1" cfg0 false
    "handshake refused" rfl rfl rfl rfl rfl (by decide) rfl rfl

/-- Claim C1 counterexample: a run whose Connection fails with a fatal
OpError ("handshake refused") makes `Reverse.Start` return nil, not that
error: the fatal error is not the supervisor's return value. -/
theorem c1_counterexample :
    (Reverse.Start rev0 0 [fatalEnv, okEnvAt 1]).2 = .returned none ∧
    Event.connStart ∈ (Reverse.Start rev0 0 [fatalEnv, okEnvAt 1]).1 := by
  decide

/-- Claim C2 (code bug): `lastRefresh` is never updated after a refresh, so
once five minutes have passed since the supervisor started, every iteration
reloads the check bundle. Concretely: with iterations at t = 301 s and
t = 302 s the bundle is reloaded twice, though the second iteration comes
one second after a successful refresh that reset `refreshCheck` to false
(second conjunct: the state after the first iteration). -/
theorem c2_refresh_every_iteration_after_five_minutes :
    (Reverse.Start rev0 0 [okEnvAt 301, okEnvAt 302]).1.count Event.refreshCall = 2 ∧
    (Reverse.Start rev0 0 [okEnvAt 301]).2 =
      .running { lastRefresh := 0, refreshCheck := false,
                 configs := [("cn1", cfg0)], innerCancelled := false } := by
  decide

/-- Every event list produced by `startIterFind` is Connection-balanced:
prepending it to any list leaves `wellNested 0` unchanged. -/
theorem startIterFind_wellNested (s : LoopState) (e : IterEnv)
    (cfgs : ReverseConfigs) (l : List Event) :
    wellNested 0 ((startIterFind s e cfgs).1 ++ l) = wellNested 0 l := by
  unfold startIterFind
  repeat' split
  all_goals simp [wellNested]

/-- Every event list produced by a full loop iteration is
Connection-balanced. -/
theorem startIter_wellNested (s : LoopState) (e : IterEnv) (l : List Event) :
    wellNested 0 ((startIter s e).1 ++ l) = wellNested 0 l := by
  have hfind := fun cfgs => startIterFind_wellNested s e cfgs l
  unfold startIter
  split
  · rfl
  · cases hb : (if fiveMinutes < e.now - s.lastRefresh then true else s.refreshCheck) with
    | false => simpa [hb] using hfind s.configs
    | true =>
      rcases hre : e.refreshResult with m | u
      · simp [hb, hre, wellNested]
      · rcases hge : e.getConfigsResult with m | cfgs
        · simp [hb, hre, hge, wellNested]
        · simpa [hb, hre, hge, wellNested, List.append_assoc] using hfind cfgs

/-- The event trace of any run of the loop is Connection-balanced. -/
theorem startLoop_wellNested (envs : List IterEnv) :
    ∀ s : LoopState, wellNested 0 (startLoop s envs).1 = true := by
  induction envs with
  | nil => intro s; rfl
  | cons e es ih =>
    intro s
    unfold startLoop
    rcases hst : startIter s e with ⟨evs, res⟩
    rcases res with r | s'
    · dsimp only
      have h0 := startIter_wellNested s e []
      rw [hst] at h0
      simpa using h0
    · dsimp only
      have h1 := startIter_wellNested s e (startLoop s' es).1
      rw [hst] at h1
      dsimp only at h1
      rw [h1]
      exact ih s'

/-- Claim C8: at every instant during a run of `Reverse.Start` at most one
Connection is active: in the event trace of any run, a `connStart` occurs
only with no Connection open and each is matched by a `connDone` before the
trace continues — each iteration runs its Connection to completion
(`wg.Wait()`) before the next can construct another. -/
theorem c8_at_most_one_connection (r : Reverse) (t : Nat) (envs : List IterEnv) :
    wellNested 0 (Reverse.Start r t envs).1 = true := by
  unfold Reverse.Start
  split
  · rfl
  · split
    · rfl
    · split
      · rfl
      · exact startLoop_wellNested envs _

/-- Claim C9: `reverse.New` returns an error exactly when the check is nil,
the agent address is empty, or reverse is enabled and one of the two
resolver calls (GetReverseConfigs, CheckMeta) fails; when reverse is
disabled it succeeds without consulting the resolver (no resolver events). -/
theorem c9_new_error_conditions (e : NewEnv) :
    ((Reverse.New e).2.isOk = false ↔
      (e.chkNil = true ∨ e.agentAddress = "" ∨
        (e.enabledSetting = true ∧
          ((∃ m, e.getConfigsResult = .error m) ∨ (∃ m, e.checkMetaResult = .error m))))) ∧
    (e.chkNil = false → e.agentAddress ≠ "" → e.enabledSetting = false →
      Reverse.New e =
        ([], .ok { agentAddress := e.agentAddress, configs := none, enabled := false })) := by
  obtain ⟨cn, addr, en, g, m⟩ := e
  dsimp only
  cases cn <;> cases en <;> rcases g with gm | gc <;> rcases m with mm | mc <;>
    by_cases ha : addr = "" <;>
      simp [Reverse.New, ha, Except.isOk, Except.toBool]

theorem c9_witness :
    Reverse.New
      { chkNil := false, agentAddress := "localhost:2609", enabledSetting := false,
        getConfigsResult := .ok [("cn1", cfg0)],
        checkMetaResult := .ok { bundleID := "b", checkID := "c", checkUUID := "u" } } =
      ([], .ok { agentAddress := "localhost:2609", configs := none, enabled := false }) :=
  (c9_new_error_conditions _).2 rfl (by decide) rfl
